import Mathlib

/-!
Shallow embedding of the request-dispatch and response-normalization layer of
the Instagram MCP server (`src/instagram_mcp_server.py`): the tool dispatcher
`handle_call_tool`, the resource reader `handle_read_resource` and the prompt
composer `handle_get_prompt`.

The API client is modelled as an explicit collaborator (`InstagramClient`)
whose operations return an `ApiOutcome`: a value, a structured
`InstagramAPIError`, or any other exception.  Each handler is embedded in two
layers: a `_body` function mirroring the `try:` block, returning
`Except PyExn _` (an `Except.error` models a Python exception escaping the
block), and the handler itself, which mirrors the `except` clauses converting
every exception into a result.  Every dispatch function additionally returns
the list of API-client calls it performed, so that claims about "zero calls to
the API client" are statable.  `datetime.utcnow()` is modelled by an explicit
`DateTime` parameter `now` holding the value the clock reads during the call.
-/

/-- Modelled from the spec: the closed metric enumeration `InsightMetric` of
`models/instagram_models.py` (that file is not in the repository snapshot);
its values are the metric strings of spec §3 and §6. -/
inductive InsightMetric where
  | reach
  | likes
  | comments
  | shares
  | saves
  | plays
  | profile_views
  | website_clicks
  deriving DecidableEq

def InsightMetric.value : InsightMetric → String
  | .reach => "reach"
  | .likes => "likes"
  | .comments => "comments"
  | .shares => "shares"
  | .saves => "saves"
  | .plays => "plays"
  | .profile_views => "profile_views"
  | .website_clicks => "website_clicks"

/-- `InsightMetric(s)`: look a string up in the enumeration. -/
def metricFromString (s : String) : Option InsightMetric :=
  if s = "reach" then some .reach
  else if s = "likes" then some .likes
  else if s = "comments" then some .comments
  else if s = "shares" then some .shares
  else if s = "saves" then some .saves
  else if s = "plays" then some .plays
  else if s = "profile_views" then some .profile_views
  else if s = "website_clicks" then some .website_clicks
  else none

/-- Modelled from the spec: the closed period enumeration `InsightPeriod` of
`models/instagram_models.py` (period ∈ \x7bday, week, days_28\x7d, spec §3). -/
inductive InsightPeriod where
  | day
  | week
  | days_28
  deriving DecidableEq

def InsightPeriod.value : InsightPeriod → String
  | .day => "day"
  | .week => "week"
  | .days_28 => "days_28"

/-- `InsightPeriod(s)`: look a string up in the enumeration. -/
def periodFromString (s : String) : Option InsightPeriod :=
  if s = "day" then some .day
  else if s = "week" then some .week
  else if s = "days_28" then some .days_28
  else none

/-- A JSON value, as produced by `json.dumps` of the payloads the server
builds (dicts, lists, strings, ints, bools, None). -/
inductive Json where
  | null
  | bool (b : Bool)
  | int (n : Int)
  | str (s : String)
  | arr (xs : List Json)
  | obj (fields : List (String × Json))

/-- A dynamic Python value, as stored in the `arguments` dict of a tool
invocation and passed on to the API client. -/
inductive PyVal where
  | none
  | str (s : String)
  | int (n : Int)
  | list (xs : List PyVal)
  | metric (m : InsightMetric)
  | period (p : InsightPeriod)

/-- Python truthiness (`bool(v)`) for the values that occur here: `None`, the
empty string, zero and the empty list are falsy. -/
def PyVal.truthy : PyVal → Bool
  | .none => false
  | .str s => s ≠ ""
  | .int n => n ≠ 0
  | .list xs => !xs.isEmpty
  | .metric _ => true
  | .period _ => true

mutual

def pyToJson : PyVal → Json
  | .none => Json.null
  | .str s => Json.str s
  | .int n => Json.int n
  | .list xs => Json.arr (pyListToJson xs)
  | .metric m => Json.str m.value
  | .period p => Json.str p.value

def pyListToJson : List PyVal → List Json
  | [] => []
  | v :: vs => pyToJson v :: pyListToJson vs

end

def jsonEscapeChar (c : Char) : String :=
  if c = '"' then "\\\""
  else if c = '\\' then "\\\\"
  else if c = '\n' then "\\n"
  else if c = '\t' then "\\t"
  else if c = '\r' then "\\r"
  else String.singleton c

def jsonEscape (s : String) : String :=
  String.join (s.data.map jsonEscapeChar)

mutual

/-- `json.dumps` of a JSON value (the indentation of the source's
`indent=2` is immaterial to every claim and elided). -/
def Json.dumps : Json → String
  | .null => "null"
  | .bool true => "true"
  | .bool false => "false"
  | .int n => toString n
  | .str s => "\"" ++ jsonEscape s ++ "\""
  | .arr xs => "[" ++ dumpsArray xs ++ "]"
  | .obj fs => "\x7b" ++ dumpsFields fs ++ "\x7d"

def dumpsArray : List Json → String
  | [] => ""
  | [x] => Json.dumps x
  | x :: xs => Json.dumps x ++ ", " ++ dumpsArray xs

def dumpsFields : List (String × Json) → String
  | [] => ""
  | [(k, v)] => "\"" ++ jsonEscape k ++ "\": " ++ Json.dumps v
  | (k, v) :: fs => "\"" ++ jsonEscape k ++ "\": " ++ Json.dumps v ++ ", " ++ dumpsFields fs

end

/-- A UTC wall-clock reading, modelling `datetime.utcnow()`. -/
structure DateTime where
  year : Nat
  month : Nat
  day : Nat
  hour : Nat
  minute : Nat
  second : Nat
  microsecond : Nat

/-- A monotone key for comparing datetimes (valid for in-range fields). -/
def DateTime.key (d : DateTime) : Nat :=
  (((((d.year * 13 + d.month) * 32 + d.day) * 24 + d.hour) * 60 + d.minute) * 60
      + d.second) * 1000000 + d.microsecond

/-- `a` is not later than `b`. -/
def DateTime.le (a b : DateTime) : Prop := a.key ≤ b.key

instance (a b : DateTime) : Decidable (a.le b) :=
  inferInstanceAs (Decidable (a.key ≤ b.key))

def pad2 (n : Nat) : List Char :=
  [Nat.digitChar (n / 10 % 10), Nat.digitChar (n % 10)]

def pad4 (n : Nat) : List Char :=
  [Nat.digitChar (n / 1000 % 10), Nat.digitChar (n / 100 % 10),
   Nat.digitChar (n / 10 % 10), Nat.digitChar (n % 10)]

def pad6 (n : Nat) : List Char :=
  [Nat.digitChar (n / 100000 % 10), Nat.digitChar (n / 10000 % 10),
   Nat.digitChar (n / 1000 % 10), Nat.digitChar (n / 100 % 10),
   Nat.digitChar (n / 10 % 10), Nat.digitChar (n % 10)]

/-- `datetime.isoformat()`: `YYYY-MM-DDTHH:MM:SS`, with `.ffffff` appended
when the microsecond field is nonzero. -/
def DateTime.isoformat (d : DateTime) : String :=
  String.mk (pad4 d.year ++ '-' :: pad2 d.month ++ '-' :: pad2 d.day ++
    'T' :: pad2 d.hour ++ ':' :: pad2 d.minute ++ ':' :: pad2 d.second ++
    (if d.microsecond = 0 then [] else '.' :: pad6 d.microsecond))

/-- Structural validity of an ISO-8601 timestamp of the shape `isoformat`
produces: digit groups separated by `-`, `-`, `T`, `:`, `:` and an optional
6-digit fractional-second part. -/
def isValidIso8601 (s : String) : Bool :=
  match s.data with
  | [y1, y2, y3, y4, '-', o1, o2, '-', d1, d2, 'T',
     h1, h2, ':', i1, i2, ':', s1, s2] =>
      [y1, y2, y3, y4, o1, o2, d1, d2, h1, h2, i1, i2, s1, s2].all Char.isDigit
  | [y1, y2, y3, y4, '-', o1, o2, '-', d1, d2, 'T',
     h1, h2, ':', i1, i2, ':', s1, s2, '.', u1, u2, u3, u4, u5, u6] =>
      [y1, y2, y3, y4, o1, o2, d1, d2, h1, h2, i1, i2, s1, s2,
       u1, u2, u3, u4, u5, u6].all Char.isDigit
  | _ => false

theorem digitChar_mod10_isDigit (n : Nat) : (Nat.digitChar (n % 10)).isDigit = true := by
  have h : n % 10 < 10 := Nat.mod_lt n (by decide)
  have hall : ∀ m, m < 10 → (Nat.digitChar m).isDigit = true := by decide
  exact hall _ h

theorem isoformat_valid (d : DateTime) : isValidIso8601 d.isoformat = true := by
  by_cases h : d.microsecond = 0 <;>
    simp [DateTime.isoformat, isValidIso8601, pad2, pad4, pad6, h,
      digitChar_mod10_isDigit]

/-- Modelled from the spec: a media post as the server reads it
(`post.id`, `post.caption`, `post.like_count`, `post.comments_count`);
`extra` carries whatever further fields `post.dict()` serializes. -/
structure Post where
  id : String
  caption : Option String
  like_count : Int
  comments_count : Int
  extra : List (String × Json)

/-- `post.dict()`. -/
def Post.dict (p : Post) : Json :=
  Json.obj ([("id", Json.str p.id),
    ("caption", match p.caption with | some c => Json.str c | Option.none => Json.null),
    ("like_count", Json.int p.like_count),
    ("comments_count", Json.int p.comments_count)] ++ p.extra)

/-- Modelled from the spec: `PublishMediaRequest` of
`models/instagram_models.py` — four optional string fields, with the
image/video exclusivity NOT checked by construction (spec §3: it "must be
enforced imperatively before construction"). -/
structure PublishMediaRequest where
  image_url : Option String
  video_url : Option String
  caption : Option String
  location_id : Option String

/-- Modelled from the spec: the uniform result envelope `MCPToolResult` of
`models/instagram_models.py` (spec §3 ResultEnvelope): success flag, optional
data payload, optional error string, metadata mapping; omitted fields default
to absent/empty. -/
structure MCPToolResult where
  success : Bool
  data : Option Json := Option.none
  error : Option String := Option.none
  metadata : List (String × Json) := []

/-- The outcome of one API-client operation: a returned value, a raised
`InstagramAPIError` (structured message/code/subcode), or any other raised
exception. -/
inductive ApiOutcome (α : Type) where
  | ok (v : α)
  | apiError (message : String) (error_code error_subcode : Option Int)
  | genericError (message : String)

def ApiOutcome.map {α β : Type} (f : α → β) : ApiOutcome α → ApiOutcome β
  | .ok v => .ok (f v)
  | .apiError m c s => .apiError m c s
  | .genericError m => .genericError m

/-- The API-client collaborator (`instagram_client.InstagramClient`): one
function per operation the server invokes, giving the outcome that operation
would produce.  Argument positions mirror the call sites in the server. -/
structure InstagramClient where
  get_profile_info : PyVal → ApiOutcome Json
  get_media_posts : PyVal → PyVal → PyVal → ApiOutcome (List Post)
  get_media_insights : PyVal → PyVal → ApiOutcome (List Json)
  publish_media : PublishMediaRequest → ApiOutcome Json
  get_account_pages : ApiOutcome (List Json)
  get_account_insights : PyVal → PyVal → InsightPeriod → ApiOutcome (List Json)
  validate_access_token : ApiOutcome Bool

/-- A record of one call made to the API client, with the arguments passed. -/
inductive ClientCall where
  | getProfileInfo (account_id : PyVal)
  | getMediaPosts (account_id limit after : PyVal)
  | getMediaInsights (media_id metrics : PyVal)
  | publishMedia (request : PublishMediaRequest)
  | getAccountPages
  | getAccountInsights (account_id metrics : PyVal) (period : InsightPeriod)
  | validateAccessToken

/-- A Python exception escaping the `try:` block of a handler. -/
inductive PyExn where
  | instagramAPIError (message : String) (error_code error_subcode : Option Int)
  | otherExn (message : String)

/-- `str(e)` as the handlers use it. -/
def PyExn.msg : PyExn → String
  | .instagramAPIError m _ _ => m
  | .otherExn m => m

/-- `arguments.get(key)`: the stored value, `None` when the key is absent. -/
def pyGet (args : List (String × PyVal)) (key : String) : PyVal :=
  (args.lookup key).getD PyVal.none

/-- `arguments.get(key, default)`. -/
def pyGetD (args : List (String × PyVal)) (key : String) (dflt : PyVal) : PyVal :=
  (args.lookup key).getD dflt

/-- `InsightMetric(v)`: enum coercion of one dynamic value; an `Except.error`
carries the `ValueError`/`TypeError` message. -/
def coerceMetric : PyVal → Except String InsightMetric
  | .metric m => Except.ok m
  | .str s =>
    match metricFromString s with
    | some m => Except.ok m
    | Option.none => Except.error ("\x27" ++ s ++ "\x27 is not a valid InsightMetric")
  | .int n => Except.error (toString n ++ " is not a valid InsightMetric")
  | .none => Except.error "None is not a valid InsightMetric"
  | .list _ => Except.error "unhashable type: \x27list\x27"
  | .period _ => Except.error "InsightPeriod is not a valid InsightMetric"

/-- `[InsightMetric(m) for m in metrics]` over a list: left to right,
stopping at the first failure. -/
def coerceEach : List PyVal → Except String (List InsightMetric)
  | [] => Except.ok []
  | v :: vs =>
    match coerceMetric v with
    | Except.error m => Except.error m
    | Except.ok mtr =>
      match coerceEach vs with
      | Except.error m => Except.error m
      | Except.ok rest => Except.ok (mtr :: rest)

/-- `[InsightMetric(m) for m in metrics]`: iterating a non-list raises
(a string iterates its characters, none of which names a metric). -/
def coerceMetrics : PyVal → Except String (List InsightMetric)
  | .list xs => coerceEach xs
  | .str s =>
    match s.data with
    | [] => Except.ok []
    | c :: _ =>
      Except.error ("\x27" ++ String.mk [c] ++ "\x27 is not a valid InsightMetric")
  | .int _ => Except.error "\x27int\x27 object is not iterable"
  | .none => Except.error "\x27NoneType\x27 object is not iterable"
  | .metric _ => Except.error "\x27InsightMetric\x27 object is not iterable"
  | .period _ => Except.error "\x27InsightPeriod\x27 object is not iterable"

/-- `InsightPeriod(v)`. -/
def coercePeriod : PyVal → Except String InsightPeriod
  | .period p => Except.ok p
  | .str s =>
    match periodFromString s with
    | some p => Except.ok p
    | Option.none => Except.error ("\x27" ++ s ++ "\x27 is not a valid InsightPeriod")
  | _ => Except.error "is not a valid InsightPeriod"

/-- Modelled from the spec: `PublishMediaRequest(**arguments)` — pydantic
construction from the arguments dict; present fields must be strings
(the declared contract types them as string URIs), unknown extra keys are
ignored, and a non-string field value fails validation. -/
def mkPublishMediaRequest (args : List (String × PyVal)) : Option PublishMediaRequest :=
  let field : PyVal → Option (Option String) := fun v =>
    match v with
    | .none => some Option.none
    | .str s => some (some s)
    | _ => Option.none
  match field (pyGet args "image_url"), field (pyGet args "video_url"),
      field (pyGet args "caption"), field (pyGet args "location_id") with
  | some i, some v, some c, some l => some ⟨i, v, c, l⟩
  | _, _, _, _ => Option.none

/-- The envelope every success path builds:
`MCPToolResult(success=True, data=…, metadata=\x7b"tool": name, "timestamp": utcnow().isoformat()\x7d)`. -/
def successEnvelope (d : Json) (tool : String) (now : DateTime) : MCPToolResult :=
  ⟨true, some d, Option.none,
   [("tool", Json.str tool), ("timestamp", Json.str now.isoformat)]⟩

/-- The fixed `publish_media` exclusivity-violation envelope. -/
def exclusivityEnvelope (tool : String) (now : DateTime) : MCPToolResult :=
  ⟨false, Option.none, some "Exactly one of image_url or video_url is required.",
   [("tool", Json.str tool), ("timestamp", Json.str now.isoformat)]⟩

/-- The unknown-tool envelope: `success=False, error="Unknown tool: …"`,
metadata left at its empty default. -/
def unknownToolEnvelope (name : String) : MCPToolResult :=
  ⟨false, Option.none, some ("Unknown tool: " ++ name), []⟩

def optIntJson : Option Int → Json
  | some n => Json.int n
  | Option.none => Json.null

/-- The `except InstagramAPIError` envelope: code/subcode metadata, no tool
name and no timestamp. -/
def apiErrorEnvelope (m : String) (c s : Option Int) : MCPToolResult :=
  ⟨false, Option.none, some ("Instagram API error: " ++ m),
   [("error_code", optIntJson c), ("error_subcode", optIntJson s)]⟩

/-- The `except Exception` envelope: wrapped message, metadata omitted. -/
def genericErrorEnvelope (m : String) : MCPToolResult :=
  ⟨false, Option.none, some ("Tool execution failed: " ++ m), []⟩

/-- Finish one successful-or-raising client interaction: a returned value is
wrapped into the success envelope, a raised exception escapes the block. -/
def finishTool (name : String) (now : DateTime) : ApiOutcome Json → Except PyExn MCPToolResult
  | .ok d => Except.ok (successEnvelope d name now)
  | .apiError m c s => Except.error (PyExn.instagramAPIError m c s)
  | .genericError m => Except.error (PyExn.otherExn m)

/-- The names of the seven catalogued tools (the dispatch branches of
`handle_call_tool`, matching the Tool Catalog). -/
def toolNames : List String :=
  ["get_profile_info", "get_media_posts", "get_media_insights", "publish_media",
   "get_account_pages", "get_account_insights", "validate_access_token"]

/-- The `try:` block of `handle_call_tool` (lines 170–249): dispatch on the
tool name, normalize arguments, call the client, build the envelope; an
`Except.error` is a Python exception reaching the `except` clauses.  The
second component records the API-client calls made. -/
def handle_call_tool_body (name : String) (args : List (String × PyVal))
    (client : InstagramClient) (now : DateTime) :
    Except PyExn MCPToolResult × List ClientCall :=
  if name = "get_profile_info" then
    let account_id := pyGet args "account_id"
    (finishTool name now (client.get_profile_info account_id),
     [ClientCall.getProfileInfo account_id])
  else if name = "get_media_posts" then
    let account_id := pyGet args "account_id"
    let limit := pyGetD args "limit" (PyVal.int 25)
    let after := pyGet args "after"
    (finishTool name now ((client.get_media_posts account_id limit after).map fun ps =>
        Json.obj [("posts", Json.arr (ps.map Post.dict)), ("count", Json.int ps.length)]),
     [ClientCall.getMediaPosts account_id limit after])
  else if name = "get_media_insights" then
    match args.lookup "media_id" with
    | Option.none => (Except.error (PyExn.otherExn "\x27media_id\x27"), [])
    | some media_id =>
      let metrics := pyGet args "metrics"
      if metrics.truthy then
        match coerceMetrics metrics with
        | Except.error m => (Except.error (PyExn.otherExn m), [])
        | Except.ok ms =>
          let mv := PyVal.list (ms.map PyVal.metric)
          (finishTool name now ((client.get_media_insights media_id mv).map fun ins =>
              Json.obj [("media_id", pyToJson media_id), ("insights", Json.arr ins)]),
           [ClientCall.getMediaInsights media_id mv])
      else
        (finishTool name now ((client.get_media_insights media_id metrics).map fun ins =>
            Json.obj [("media_id", pyToJson media_id), ("insights", Json.arr ins)]),
         [ClientCall.getMediaInsights media_id metrics])
  else if name = "publish_media" then
    let image_url := pyGet args "image_url"
    let video_url := pyGet args "video_url"
    if image_url.truthy = video_url.truthy then
      (Except.ok (exclusivityEnvelope name now), [])
    else
      match mkPublishMediaRequest args with
      | Option.none =>
        (Except.error (PyExn.otherExn "1 validation error for PublishMediaRequest"), [])
      | some request =>
        (finishTool name now (client.publish_media request),
         [ClientCall.publishMedia request])
  else if name = "get_account_pages" then
    (finishTool name now (client.get_account_pages.map fun pgs =>
        Json.obj [("pages", Json.arr pgs), ("count", Json.int pgs.length)]),
     [ClientCall.getAccountPages])
  else if name = "get_account_insights" then
    let account_id := pyGet args "account_id"
    let metrics := pyGet args "metrics"
    match coercePeriod (pyGetD args "period" (PyVal.str "day")) with
    | Except.error m => (Except.error (PyExn.otherExn m), [])
    | Except.ok period =>
      (finishTool name now ((client.get_account_insights account_id metrics period).map
          fun ins =>
            Json.obj [("insights", Json.arr ins), ("period", Json.str period.value)]),
       [ClientCall.getAccountInsights account_id metrics period])
  else if name = "validate_access_token" then
    (finishTool name now (client.validate_access_token.map fun b =>
        Json.obj [("valid", Json.bool b)]),
     [ClientCall.validateAccessToken])
  else
    (Except.ok (unknownToolEnvelope name), [])

/-- `handle_call_tool` (lines 161–260): the `try:` block with its two
`except` clauses, which convert an `InstagramAPIError` and any other
exception into their failure envelopes. -/
def handle_call_tool (name : String) (args : List (String × PyVal))
    (client : InstagramClient) (now : DateTime) : MCPToolResult × List ClientCall :=
  match handle_call_tool_body name args client now with
  | (Except.ok r, cs) => (r, cs)
  | (Except.error (PyExn.instagramAPIError m c s), cs) => (apiErrorEnvelope m c s, cs)
  | (Except.error (PyExn.otherExn m), cs) => (genericErrorEnvelope m, cs)

/-- The four recognized resource URIs (`handle_list_resources`). -/
def resourceUris : List String :=
  ["instagram://profile", "instagram://media/recent",
   "instagram://insights/account", "instagram://pages"]

/-- The `try:` block of `handle_read_resource` (lines 297–311): each
recognized URI makes exactly one client call and serializes the result; an
unknown URI raises `ValueError`. -/
def handle_read_resource_body (uri : String) (client : InstagramClient) :
    Except PyExn String :=
  if uri = "instagram://profile" then
    match client.get_profile_info PyVal.none with
    | .ok p => Except.ok (Json.dumps p)
    | .apiError m c s => Except.error (PyExn.instagramAPIError m c s)
    | .genericError m => Except.error (PyExn.otherExn m)
  else if uri = "instagram://media/recent" then
    match client.get_media_posts PyVal.none (PyVal.int 10) PyVal.none with
    | .ok ps => Except.ok (Json.dumps (Json.arr (ps.map Post.dict)))
    | .apiError m c s => Except.error (PyExn.instagramAPIError m c s)
    | .genericError m => Except.error (PyExn.otherExn m)
  else if uri = "instagram://insights/account" then
    match client.get_account_insights PyVal.none PyVal.none InsightPeriod.day with
    | .ok xs => Except.ok (Json.dumps (Json.arr xs))
    | .apiError m c s => Except.error (PyExn.instagramAPIError m c s)
    | .genericError m => Except.error (PyExn.otherExn m)
  else if uri = "instagram://pages" then
    match client.get_account_pages with
    | .ok pgs => Except.ok (Json.dumps (Json.arr pgs))
    | .apiError m c s => Except.error (PyExn.instagramAPIError m c s)
    | .genericError m => Except.error (PyExn.otherExn m)
  else
    Except.error (PyExn.otherExn ("Unknown resource URI: " ++ uri))

/-- `handle_read_resource` (lines 291–314): any exception, the unknown-URI
`ValueError` included, is converted into serialized `\x7b"error": str(e)\x7d`
text. -/
def handle_read_resource (uri : String) (client : InstagramClient) : String :=
  match handle_read_resource_body uri client with
  | Except.ok s => s
  | Except.error e => Json.dumps (Json.obj [("error", Json.str e.msg)])

/-- Characters `str.split()` (and `int()`) treat as whitespace. -/
def pyIsSpace (c : Char) : Bool :=
  c = ' ' || c = '\t' || c = '\n' || c = '\r' || c = '\x0b' || c = '\x0c'

/-- Python `s.split()`: split on whitespace runs, discarding empty pieces. -/
def pySplit (s : String) : List String :=
  (s.split pyIsSpace).filter fun t => t ≠ ""

def stripWs (cs : List Char) : List Char :=
  ((cs.dropWhile pyIsSpace).reverse.dropWhile pyIsSpace).reverse

def pyDigitsVal (cs : List Char) : Nat :=
  cs.foldl (fun a c => a * 10 + (c.toNat - 48)) 0

/-- Python `int(s)` on a string: optional surrounding whitespace, optional
sign, then at least one decimal digit; anything else raises `ValueError`. -/
def pyInt (s : String) : Except String Int :=
  let signed : Bool × List Char :=
    match stripWs s.data with
    | '-' :: rest => (true, rest)
    | '+' :: rest => (false, rest)
    | other => (false, other)
  if signed.2 ≠ [] ∧ signed.2.all Char.isDigit then
    Except.ok (if signed.1 then -(pyDigitsVal signed.2 : Int) else (pyDigitsVal signed.2 : Int))
  else
    Except.error ("invalid literal for int() with base 10: \x27" ++ s ++ "\x27")

/-- `if post.caption:` — the post has a truthy (present and non-empty)
caption. -/
def captionTruthy (p : Post) : Bool :=
  match p.caption with
  | some c => c ≠ ""
  | Option.none => false

/-- One entry of `hashtags_data`: post id, the caption tokens beginning with
`#`, and the like/comment counts copied from the post. -/
def hashtagEntry (p : Post) : Json :=
  Json.obj [("post_id", Json.str p.id),
    ("hashtags",
     Json.arr (((pySplit (p.caption.getD "")).filter fun w => w.startsWith "#").map Json.str)),
    ("likes", Json.int p.like_count),
    ("comments", Json.int p.comments_count)]

/-- `hashtags_data` (lines 396–402): one entry per post whose caption is
truthy, in order. -/
def hashtagsData (posts : List Post) : List Json :=
  posts.filterMap fun p =>
    if captionTruthy p then some (hashtagEntry p) else Option.none

/-- The rendered `analyze_engagement` prompt text. -/
def analyzeEngagementText (media_id : String) (insights : List Json) : String :=
  "\nAnalyze engagement for Instagram post " ++ media_id ++ ".\n\nInsights:\n" ++
  Json.dumps (Json.arr insights) ++
  "\n\nProvide:\n1) Overall performance\n2) Key metrics (reach, likes, comments, shares, saves, plays if applicable)\n3) Engagement rate & interpretation\n4) Recommendations for future posts\n5) Comparison with typical benchmarks\n"

/-- The rendered `content_strategy` prompt text (only the first five fetched
posts are embedded). -/
def contentStrategyText (focus_area time_period : String)
    (posts : List Post) (account_insights : List Json) : String :=
  "\nCreate a content strategy focusing on " ++ focus_area ++ " over the next " ++
  time_period ++ ".\n\nRecent Posts:\n" ++
  Json.dumps (Json.arr ((posts.take 5).map Post.dict)) ++
  "\n\nAccount Insights:\n" ++ Json.dumps (Json.arr account_insights) ++
  "\n\nInclude:\n- Performance analysis\n- Posting times & frequency\n- Content type recommendations\n- Caption & hashtag strategy\n- Engagement tactics to improve " ++
  focus_area ++ "\n- Action items for the next " ++ time_period ++ "\n"

/-- The rendered `hashtag_analysis` prompt text. -/
def hashtagText (post_count : Int) (data : List Json) : String :=
  "\nAnalyze hashtag performance for the last " ++ toString post_count ++
  " posts.\n\nData:\n" ++ Json.dumps (Json.arr data) ++
  "\n\nProvide:\n- Most frequent tags\n- Correlation with engagement\n- Hashtag diversity\n- Optimization recommendations\n- New tags to test\n"

/-- The `try:` block of `handle_get_prompt` (lines 348–419), with the client
calls each branch performs recorded in the second component. -/
def handle_get_prompt_body (name : String) (args : List (String × String))
    (client : InstagramClient) : Except PyExn String × List ClientCall :=
  if name = "analyze_engagement" then
    let media_id := (args.lookup "media_id").getD ""
    if media_id = "" then
      (Except.ok "Error: media_id is required for engagement analysis", [])
    else
      match client.get_media_insights (PyVal.str media_id) PyVal.none with
      | .ok ins =>
        (Except.ok (analyzeEngagementText media_id ins),
         [ClientCall.getMediaInsights (PyVal.str media_id) PyVal.none])
      | .apiError m c s =>
        (Except.error (PyExn.instagramAPIError m c s),
         [ClientCall.getMediaInsights (PyVal.str media_id) PyVal.none])
      | .genericError m =>
        (Except.error (PyExn.otherExn m),
         [ClientCall.getMediaInsights (PyVal.str media_id) PyVal.none])
  else if name = "content_strategy" then
    let focus_area := (args.lookup "focus_area").getD "engagement"
    let time_period := (args.lookup "time_period").getD "week"
    match client.get_media_posts PyVal.none (PyVal.int 20) PyVal.none with
    | .ok posts =>
      match client.get_account_insights PyVal.none PyVal.none InsightPeriod.day with
      | .ok ins =>
        (Except.ok (contentStrategyText focus_area time_period posts ins),
         [ClientCall.getMediaPosts PyVal.none (PyVal.int 20) PyVal.none,
          ClientCall.getAccountInsights PyVal.none PyVal.none InsightPeriod.day])
      | .apiError m c s =>
        (Except.error (PyExn.instagramAPIError m c s),
         [ClientCall.getMediaPosts PyVal.none (PyVal.int 20) PyVal.none,
          ClientCall.getAccountInsights PyVal.none PyVal.none InsightPeriod.day])
      | .genericError m =>
        (Except.error (PyExn.otherExn m),
         [ClientCall.getMediaPosts PyVal.none (PyVal.int 20) PyVal.none,
          ClientCall.getAccountInsights PyVal.none PyVal.none InsightPeriod.day])
    | .apiError m c s =>
      (Except.error (PyExn.instagramAPIError m c s),
       [ClientCall.getMediaPosts PyVal.none (PyVal.int 20) PyVal.none])
    | .genericError m =>
      (Except.error (PyExn.otherExn m),
       [ClientCall.getMediaPosts PyVal.none (PyVal.int 20) PyVal.none])
  else if name = "hashtag_analysis" then
    match pyInt ((args.lookup "post_count").getD "10") with
    | Except.error m => (Except.error (PyExn.otherExn m), [])
    | Except.ok post_count =>
      match client.get_media_posts PyVal.none (PyVal.int post_count) PyVal.none with
      | .ok posts =>
        (Except.ok (hashtagText post_count (hashtagsData posts)),
         [ClientCall.getMediaPosts PyVal.none (PyVal.int post_count) PyVal.none])
      | .apiError m c s =>
        (Except.error (PyExn.instagramAPIError m c s),
         [ClientCall.getMediaPosts PyVal.none (PyVal.int post_count) PyVal.none])
      | .genericError m =>
        (Except.error (PyExn.otherExn m),
         [ClientCall.getMediaPosts PyVal.none (PyVal.int post_count) PyVal.none])
  else
    (Except.ok ("Error: Unknown prompt \x27" ++ name ++ "\x27"), [])

/-- `handle_get_prompt` (lines 342–422): any exception during composition is
converted into a plain-text error sentinel. -/
def handle_get_prompt (name : String) (args : List (String × String))
    (client : InstagramClient) : String × List ClientCall :=
  match handle_get_prompt_body name args client with
  | (Except.ok s, cs) => (s, cs)
  | (Except.error e, cs) => ("Error generating prompt: " ++ e.msg, cs)

/-! ## Structural lemmas -/

/-- The possible results of the `try:` block: an exception, a success
envelope for the invoked tool, the fixed exclusivity envelope, or the
unknown-tool envelope. -/
def envelopeShape (name : String) (now : DateTime)
    (r : Except PyExn MCPToolResult × List ClientCall) : Prop :=
  (∃ e cs, r = (Except.error e, cs)) ∨
  (∃ d cs, r = (Except.ok (successEnvelope d name now), cs)) ∨
  r = (Except.ok (exclusivityEnvelope name now), []) ∨
  r = (Except.ok (unknownToolEnvelope name), [])

/-- Every result of the `try:` block is an exception, a success envelope for
the invoked tool, the fixed exclusivity envelope, or the unknown-tool
envelope. -/
theorem dispatch_shape (name : String) (args : List (String × PyVal))
    (client : InstagramClient) (now : DateTime) :
    envelopeShape name now (handle_call_tool_body name args client now) := by
  simp only [handle_call_tool_body, finishTool]
  repeat' split
  all_goals unfold envelopeShape
  all_goals
    first
    | exact Or.inl ⟨_, _, rfl⟩
    | exact Or.inr (Or.inl ⟨_, _, rfl⟩)
    | exact Or.inr (Or.inr (Or.inl rfl))
    | exact Or.inr (Or.inr (Or.inr rfl))

/-- The call trace of `handle_call_tool` is the trace of its `try:` block:
the `except` clauses add no client calls. -/
theorem call_trace_eq (name : String) (args : List (String × PyVal))
    (client : InstagramClient) (now : DateTime) :
    (handle_call_tool name args client now).snd =
      (handle_call_tool_body name args client now).snd := by
  unfold handle_call_tool
  split <;> simp_all

theorem filterMap_if_eq {α β : Type} (l : List α) (q : α → Bool) (f : α → β) :
    (l.filterMap fun x => if q x then some (f x) else Option.none) =
      (l.filter q).map f := by
  induction l with
  | nil => rfl
  | cons a t ih =>
    by_cases h : q a <;> simp [List.filterMap_cons, List.filter_cons, h, ih]

/-- If some element of the list fails metric coercion, the whole
comprehension fails. -/
theorem coerceEach_error (xs : List PyVal) (v : PyVal) (hv : v ∈ xs)
    (hbad : ∃ m, coerceMetric v = Except.error m) :
    ∃ m, coerceEach xs = Except.error m := by
  induction xs with
  | nil => cases hv
  | cons a t ih =>
    rcases List.mem_cons.mp hv with rfl | hvt
    · obtain ⟨m, hm⟩ := hbad
      exact ⟨m, by simp [coerceEach, hm]⟩
    · unfold coerceEach
      match ha : coerceMetric a with
      | Except.error m => exact ⟨m, rfl⟩
      | Except.ok mtr =>
        obtain ⟨m, hm⟩ := ih hvt
        exact ⟨m, by simp [hm]⟩

/-! ## C1 -/

/-- C1: for every tool invocation — every name, argument mapping, client
behavior and clock reading — `handle_call_tool` returns a result envelope
(it is total), and every exception the dispatch body raises is converted into
an envelope with `success = false` carrying an error message: no failure
propagates to the caller. -/
theorem callTool_never_raises (name : String) (args : List (String × PyVal))
    (client : InstagramClient) (now : DateTime) :
    ∃ env calls, handle_call_tool name args client now = (env, calls) ∧
      ∀ e cs, handle_call_tool_body name args client now = (Except.error e, cs) →
        env.success = false ∧ env.error.isSome = true := by
  refine ⟨(handle_call_tool name args client now).fst,
    (handle_call_tool name args client now).snd, rfl, ?_⟩
  intro e cs h
  unfold handle_call_tool
  rw [h]
  cases e <;> simp [apiErrorEnvelope, genericErrorEnvelope]

/-! ## C4 -/

/-- C4: when the dispatch body raises a structured `InstagramAPIError`, the
returned envelope has `success = false`, error text embedding the upstream
message, and metadata consisting of the upstream code and subcode only — no
tool name and no timestamp. -/
theorem api_error_envelope_path (name : String) (args : List (String × PyVal))
    (client : InstagramClient) (now : DateTime) (m : String) (c s : Option Int)
    (cs : List ClientCall)
    (h : handle_call_tool_body name args client now =
      (Except.error (PyExn.instagramAPIError m c s), cs)) :
    handle_call_tool name args client now =
      (⟨false, Option.none, some ("Instagram API error: " ++ m),
        [("error_code", optIntJson c), ("error_subcode", optIntJson s)]⟩, cs) := by
  unfold handle_call_tool
  rw [h]
  rfl

/-! ## C6 -/

/-- C6: an invocation whose name is not one of the seven catalogued tools
returns `success = false` with the exact message `"Unknown tool: " ++ name`,
empty metadata, no data, and makes no client call. -/
theorem unknown_tool_envelope_eq (name : String) (args : List (String × PyVal))
    (client : InstagramClient) (now : DateTime) (h : name ∉ toolNames) :
    handle_call_tool name args client now =
      (⟨false, Option.none, some ("Unknown tool: " ++ name), []⟩, []) := by
  simp only [toolNames, List.mem_cons, List.not_mem_nil, or_false, not_or] at h
  obtain ⟨h1, h2, h3, h4, h5, h6, h7⟩ := h
  unfold handle_call_tool handle_call_tool_body
  rw [if_neg h1, if_neg h2, if_neg h3, if_neg h4, if_neg h5, if_neg h6, if_neg h7]
  rfl

/-- Reduction of the dispatch body at the literal name `publish_media`. -/
theorem body_publish_media (args : List (String × PyVal)) (client : InstagramClient)
    (now : DateTime) :
    handle_call_tool_body "publish_media" args client now =
      (if (pyGet args "image_url").truthy = (pyGet args "video_url").truthy then
        (Except.ok (exclusivityEnvelope "publish_media" now), [])
      else
        match mkPublishMediaRequest args with
        | Option.none =>
          (Except.error (PyExn.otherExn "1 validation error for PublishMediaRequest"), [])
        | some request =>
          (finishTool "publish_media" now (client.publish_media request),
           [ClientCall.publishMedia request])) := rfl

/-- Reduction of the dispatch body at the literal name `get_media_insights`. -/
theorem body_get_media_insights (args : List (String × PyVal)) (client : InstagramClient)
    (now : DateTime) :
    handle_call_tool_body "get_media_insights" args client now =
      (match args.lookup "media_id" with
      | Option.none => (Except.error (PyExn.otherExn "\x27media_id\x27"), [])
      | some media_id =>
        if (pyGet args "metrics").truthy then
          match coerceMetrics (pyGet args "metrics") with
          | Except.error m => (Except.error (PyExn.otherExn m), [])
          | Except.ok ms =>
            (finishTool "get_media_insights" now
              ((client.get_media_insights media_id (PyVal.list (ms.map PyVal.metric))).map
                fun ins =>
                  Json.obj [("media_id", pyToJson media_id), ("insights", Json.arr ins)]),
             [ClientCall.getMediaInsights media_id (PyVal.list (ms.map PyVal.metric))])
        else
          (finishTool "get_media_insights" now
            ((client.get_media_insights media_id (pyGet args "metrics")).map fun ins =>
              Json.obj [("media_id", pyToJson media_id), ("insights", Json.arr ins)]),
           [ClientCall.getMediaInsights media_id (pyGet args "metrics")])) := rfl

/-- Reduction of the dispatch body at the literal name `get_account_insights`. -/
theorem body_get_account_insights (args : List (String × PyVal))
    (client : InstagramClient) (now : DateTime) :
    handle_call_tool_body "get_account_insights" args client now =
      (match coercePeriod (pyGetD args "period" (PyVal.str "day")) with
      | Except.error m => (Except.error (PyExn.otherExn m), [])
      | Except.ok period =>
        (finishTool "get_account_insights" now
          ((client.get_account_insights (pyGet args "account_id") (pyGet args "metrics")
              period).map fun ins =>
            Json.obj [("insights", Json.arr ins), ("period", Json.str period.value)]),
         [ClientCall.getAccountInsights (pyGet args "account_id") (pyGet args "metrics")
            period])) := rfl

/-- `handle_call_tool` passes an envelope the `try:` block returned through
unchanged. -/
theorem call_result_ok (name : String) (args : List (String × PyVal))
    (client : InstagramClient) (now : DateTime) (r : MCPToolResult)
    (cs : List ClientCall)
    (h : handle_call_tool_body name args client now = (Except.ok r, cs)) :
    handle_call_tool name args client now = (r, cs) := by
  unfold handle_call_tool
  rw [h]

/-- `except InstagramAPIError`: the structured upstream error becomes the
code/subcode envelope. -/
theorem call_result_api_error (name : String) (args : List (String × PyVal))
    (client : InstagramClient) (now : DateTime) (m : String) (c s : Option Int)
    (cs : List ClientCall)
    (h : handle_call_tool_body name args client now =
      (Except.error (PyExn.instagramAPIError m c s), cs)) :
    handle_call_tool name args client now = (apiErrorEnvelope m c s, cs) := by
  unfold handle_call_tool
  rw [h]

/-- `except Exception`: any other exception becomes the generic failure
envelope. -/
theorem call_result_other_error (name : String) (args : List (String × PyVal))
    (client : InstagramClient) (now : DateTime) (m : String)
    (cs : List ClientCall)
    (h : handle_call_tool_body name args client now =
      (Except.error (PyExn.otherExn m), cs)) :
    handle_call_tool name args client now = (genericErrorEnvelope m, cs) := by
  unfold handle_call_tool
  rw [h]

/-! ## C3 -/

/-- C3: every envelope `handle_call_tool` produces has exactly one of
data/error populated — data present and error absent iff `success = true`,
data absent and error present iff `success = false` — and on success the
metadata's `tool` entry is the invoked name and its `timestamp` entry is a
valid ISO-8601 rendering of a clock reading not earlier than the call's
start. -/
theorem envelope_invariants (name : String) (args : List (String × PyVal))
    (client : InstagramClient) (now start : DateTime) (h : DateTime.le start now) :
    ((handle_call_tool name args client now).fst.success = true →
       (handle_call_tool name args client now).fst.data.isSome = true ∧
       (handle_call_tool name args client now).fst.error = Option.none) ∧
    ((handle_call_tool name args client now).fst.success = false →
       (handle_call_tool name args client now).fst.data = Option.none ∧
       (handle_call_tool name args client now).fst.error.isSome = true) ∧
    ((handle_call_tool name args client now).fst.success = true →
       (handle_call_tool name args client now).fst.metadata.lookup "tool" =
         some (Json.str name) ∧
       ∃ t : DateTime,
         (handle_call_tool name args client now).fst.metadata.lookup "timestamp" =
           some (Json.str t.isoformat) ∧
         isValidIso8601 t.isoformat = true ∧ DateTime.le start t) := by
  have hs := dispatch_shape name args client now
  unfold envelopeShape at hs
  rcases hs with ⟨e, cs, he⟩ | ⟨d, cs, hd⟩ | hx | hu
  · cases e with
    | instagramAPIError m c s =>
      rw [call_result_api_error name args client now m c s cs he]
      refine ⟨fun hc => ?_, fun _ => ⟨rfl, rfl⟩, fun hc => ?_⟩ <;>
        simp [apiErrorEnvelope] at hc
    | otherExn m =>
      rw [call_result_other_error name args client now m cs he]
      refine ⟨fun hc => ?_, fun _ => ⟨rfl, rfl⟩, fun hc => ?_⟩ <;>
        simp [genericErrorEnvelope] at hc
  · rw [call_result_ok name args client now (successEnvelope d name now) cs hd]
    refine ⟨fun _ => ⟨rfl, rfl⟩, fun hc => ?_, fun _ => ⟨rfl, now, rfl, isoformat_valid now, h⟩⟩
    simp [successEnvelope] at hc
  · rw [call_result_ok name args client now (exclusivityEnvelope name now) [] hx]
    refine ⟨fun hc => ?_, fun _ => ⟨rfl, rfl⟩, fun hc => ?_⟩ <;>
      simp [exclusivityEnvelope] at hc
  · rw [call_result_ok name args client now (unknownToolEnvelope name) [] hu]
    refine ⟨fun hc => ?_, fun _ => ⟨rfl, rfl⟩, fun hc => ?_⟩ <;>
      simp [unknownToolEnvelope] at hc

/-! ## C2 -/

/-- C2 (amended): whenever `image_url` and `video_url` are both truthy or
both untruthy (absent, `None` or empty), `publish_media` returns the fixed
exclusivity envelope with `success = false` and performs no client call (and
hence constructs no `PublishMediaRequest`). -/
theorem publish_exclusivity_truthiness (args : List (String × PyVal))
    (client : InstagramClient) (now : DateTime)
    (h : (pyGet args "image_url").truthy = (pyGet args "video_url").truthy) :
    handle_call_tool "publish_media" args client now =
      (⟨false, Option.none, some "Exactly one of image_url or video_url is required.",
        [("tool", Json.str "publish_media"), ("timestamp", Json.str now.isoformat)]⟩,
       []) := by
  apply call_result_ok
  rw [body_publish_media, if_pos h]
  rfl

def epochDT : DateTime := ⟨1970, 1, 1, 0, 0, 0, 0⟩

def nowDT : DateTime := ⟨2026, 10, 12, 3, 4, 5, 123456⟩

/-- A test double whose publish operation succeeds; the other operations are
unused by the calls made against it. -/
def pubClient : InstagramClient where
  get_profile_info := fun _ => ApiOutcome.genericError "unused"
  get_media_posts := fun _ _ _ => ApiOutcome.genericError "unused"
  get_media_insights := fun _ _ => ApiOutcome.genericError "unused"
  publish_media := fun _ => ApiOutcome.ok (Json.obj [("id", Json.str "17895695668004550")])
  get_account_pages := ApiOutcome.genericError "unused"
  get_account_insights := fun _ _ _ => ApiOutcome.genericError "unused"
  validate_access_token := ApiOutcome.genericError "unused"

/-- C2 counterexample: with `image_url` and `video_url` BOTH SUPPLIED — one
of them as the empty string — the call does NOT return the exclusivity
failure: it proceeds to the API client (one `publish_media` call) and
succeeds. -/
theorem publish_both_supplied_counterexample :
    (handle_call_tool "publish_media"
        [("image_url", PyVal.str ""), ("video_url", PyVal.str "http://example.com/v.mp4")]
        pubClient epochDT).fst.success = true ∧
    (handle_call_tool "publish_media"
        [("image_url", PyVal.str ""), ("video_url", PyVal.str "http://example.com/v.mp4")]
        pubClient epochDT).snd =
      [ClientCall.publishMedia
        ⟨some "", some "http://example.com/v.mp4", Option.none, Option.none⟩] :=
  ⟨rfl, rfl⟩

theorem publish_exclusivity_truthiness_witness :
    handle_call_tool "publish_media" [] pubClient epochDT =
      (⟨false, Option.none, some "Exactly one of image_url or video_url is required.",
        [("tool", Json.str "publish_media"), ("timestamp", Json.str epochDT.isoformat)]⟩,
       []) :=
  publish_exclusivity_truthiness [] pubClient epochDT rfl

/-! ## C5 -/

/-- C5: a `get_media_insights` invocation whose metrics list contains a
string outside the metric enumeration, and a `get_account_insights`
invocation whose period string is outside the period enumeration, both fail
with `success = false` before any API-client operation is invoked (empty
call trace). -/
theorem invalid_enum_fails_before_client (args : List (String × PyVal))
    (client : InstagramClient) (now : DateTime) :
    (∀ xs s, pyGet args "metrics" = PyVal.list xs → PyVal.str s ∈ xs →
       metricFromString s = Option.none →
       (handle_call_tool "get_media_insights" args client now).fst.success = false ∧
       (handle_call_tool "get_media_insights" args client now).snd = []) ∧
    (∀ s, pyGetD args "period" (PyVal.str "day") = PyVal.str s →
       periodFromString s = Option.none →
       (handle_call_tool "get_account_insights" args client now).fst.success = false ∧
       (handle_call_tool "get_account_insights" args client now).snd = []) := by
  constructor
  · intro xs s hxs hmem hbad
    have hbody : ∃ m2, handle_call_tool_body "get_media_insights" args client now =
        (Except.error (PyExn.otherExn m2), []) := by
      rw [body_get_media_insights]
      cases hmid : args.lookup "media_id" with
      | none => exact ⟨_, rfl⟩
      | some mid =>
        have htr : (PyVal.list xs).truthy = true := by
          cases xs with
          | nil => cases hmem
          | cons a t => rfl
        obtain ⟨m, hm⟩ : ∃ m, coerceMetrics (PyVal.list xs) = Except.error m := by
          refine coerceEach_error xs (PyVal.str s) hmem ?_
          simp [coerceMetric, hbad]
        exact ⟨m, by simp [hxs, htr, hm]⟩
    obtain ⟨m2, hb⟩ := hbody
    rw [call_result_other_error _ _ _ _ _ _ hb]
    exact ⟨rfl, rfl⟩
  · intro s hs hbad
    have hcp : coercePeriod (pyGetD args "period" (PyVal.str "day")) =
        Except.error ("\x27" ++ s ++ "\x27 is not a valid InsightPeriod") := by
      rw [hs]
      simp [coercePeriod, hbad]
    have hb : handle_call_tool_body "get_account_insights" args client now =
        (Except.error (PyExn.otherExn ("\x27" ++ s ++ "\x27 is not a valid InsightPeriod")),
         []) := by
      rw [body_get_account_insights, hcp]
    rw [call_result_other_error _ _ _ _ _ _ hb]
    exact ⟨rfl, rfl⟩

/-! ## C9 -/

/-- C9: a `get_account_insights` invocation with no `period` argument passes
`InsightPeriod.day` (the default) to the API client, and a successful
envelope's data reports `"period": "day"`. -/
theorem account_insights_default_period (args : List (String × PyVal))
    (client : InstagramClient) (now : DateTime)
    (h : args.lookup "period" = Option.none) :
    (handle_call_tool "get_account_insights" args client now).snd =
      [ClientCall.getAccountInsights (pyGet args "account_id") (pyGet args "metrics")
        InsightPeriod.day] ∧
    ∀ ins, client.get_account_insights (pyGet args "account_id") (pyGet args "metrics")
        InsightPeriod.day = ApiOutcome.ok ins →
      (handle_call_tool "get_account_insights" args client now).fst.data =
        some (Json.obj [("insights", Json.arr ins), ("period", Json.str "day")]) := by
  have hcp : coercePeriod (pyGetD args "period" (PyVal.str "day")) =
      Except.ok InsightPeriod.day := by
    unfold pyGetD
    rw [h]
    rfl
  constructor
  · rw [call_trace_eq, body_get_account_insights, hcp]
  · intro ins hins
    have hb : handle_call_tool_body "get_account_insights" args client now =
        (Except.ok (successEnvelope
            (Json.obj [("insights", Json.arr ins), ("period", Json.str "day")])
            "get_account_insights" now),
         [ClientCall.getAccountInsights (pyGet args "account_id") (pyGet args "metrics")
            InsightPeriod.day]) := by
      rw [body_get_account_insights, hcp]
      simp [hins, finishTool, ApiOutcome.map, successEnvelope, InsightPeriod.value]
    rw [call_result_ok _ _ _ _ _ _ hb]
    rfl

/-- A test double returning one insight row for the default period and
failing for any other period. -/
def insClient : InstagramClient where
  get_profile_info := fun _ => ApiOutcome.genericError "unused"
  get_media_posts := fun _ _ _ => ApiOutcome.genericError "unused"
  get_media_insights := fun _ _ => ApiOutcome.genericError "unused"
  publish_media := fun _ => ApiOutcome.genericError "unused"
  get_account_pages := ApiOutcome.genericError "unused"
  get_account_insights := fun _ _ p =>
    match p with
    | InsightPeriod.day => ApiOutcome.ok [Json.obj [("name", Json.str "reach")]]
    | _ => ApiOutcome.genericError "wrong period"
  validate_access_token := ApiOutcome.genericError "unused"

theorem account_insights_default_period_witness :
    (handle_call_tool "get_account_insights" [] insClient epochDT).snd =
      [ClientCall.getAccountInsights (pyGet [] "account_id") (pyGet [] "metrics")
        InsightPeriod.day] ∧
    ∀ ins, insClient.get_account_insights (pyGet [] "account_id") (pyGet [] "metrics")
        InsightPeriod.day = ApiOutcome.ok ins →
      (handle_call_tool "get_account_insights" [] insClient epochDT).fst.data =
        some (Json.obj [("insights", Json.arr ins), ("period", Json.str "day")]) :=
  account_insights_default_period [] insClient epochDT rfl

/-! ## C7 -/

/-- C7: for every URI and client outcome `handle_read_resource` returns text
(it is total); whenever the body fails — any raised exception, the
unrecognized-URI `ValueError` included — the returned text is the JSON
serialization of an object with the single key `error` carrying the failure
message. -/
theorem resource_read_never_raises (uri : String) (client : InstagramClient) :
    (∀ e, handle_read_resource_body uri client = Except.error e →
       handle_read_resource uri client =
         Json.dumps (Json.obj [("error", Json.str e.msg)])) ∧
    (uri ∉ resourceUris →
       handle_read_resource uri client =
         Json.dumps (Json.obj [("error", Json.str ("Unknown resource URI: " ++ uri))])) := by
  constructor
  · intro e he
    unfold handle_read_resource
    rw [he]
  · intro hu
    simp only [resourceUris, List.mem_cons, List.not_mem_nil, or_false, not_or] at hu
    obtain ⟨h1, h2, h3, h4⟩ := hu
    unfold handle_read_resource handle_read_resource_body
    rw [if_neg h1, if_neg h2, if_neg h3, if_neg h4]
    rfl

/-! ## C8 -/

/-- Reduction of the prompt body at the literal name `hashtag_analysis`. -/
theorem body_hashtag_analysis (args : List (String × String))
    (client : InstagramClient) :
    handle_get_prompt_body "hashtag_analysis" args client =
      (match pyInt ((args.lookup "post_count").getD "10") with
      | Except.error m => (Except.error (PyExn.otherExn m), [])
      | Except.ok post_count =>
        match client.get_media_posts PyVal.none (PyVal.int post_count) PyVal.none with
        | .ok posts =>
          (Except.ok (hashtagText post_count (hashtagsData posts)),
           [ClientCall.getMediaPosts PyVal.none (PyVal.int post_count) PyVal.none])
        | .apiError m c s =>
          (Except.error (PyExn.instagramAPIError m c s),
           [ClientCall.getMediaPosts PyVal.none (PyVal.int post_count) PyVal.none])
        | .genericError m =>
          (Except.error (PyExn.otherExn m),
           [ClientCall.getMediaPosts PyVal.none (PyVal.int post_count) PyVal.none])) := rfl

/-- C8: for `hashtag_analysis`, `post_count` parses from string with default
10 (the fetch limit when the argument is absent is 10); the rendered data has
exactly one entry per fetched post with a truthy caption, in order; and each
entry lists the post id, the caption tokens beginning with `#`, and the
post's like and comment counts verbatim. -/
theorem hashtag_analysis_entries (args : List (String × String))
    (client : InstagramClient) (posts : List Post) (n : Int)
    (hn : pyInt ((args.lookup "post_count").getD "10") = Except.ok n)
    (hp : client.get_media_posts PyVal.none (PyVal.int n) PyVal.none =
      ApiOutcome.ok posts) :
    handle_get_prompt "hashtag_analysis" args client =
      (hashtagText n (hashtagsData posts),
       [ClientCall.getMediaPosts PyVal.none (PyVal.int n) PyVal.none]) ∧
    (args.lookup "post_count" = Option.none → n = 10) ∧
    hashtagsData posts = (posts.filter captionTruthy).map hashtagEntry ∧
    ∀ p ∈ posts, captionTruthy p = true →
      hashtagEntry p = Json.obj [("post_id", Json.str p.id),
        ("hashtags", Json.arr (((pySplit (p.caption.getD "")).filter
            fun w => w.startsWith "#").map Json.str)),
        ("likes", Json.int p.like_count), ("comments", Json.int p.comments_count)] := by
  refine ⟨?_, ?_, ?_, ?_⟩
  · have hb : handle_get_prompt_body "hashtag_analysis" args client =
        (Except.ok (hashtagText n (hashtagsData posts)),
         [ClientCall.getMediaPosts PyVal.none (PyVal.int n) PyVal.none]) := by
      rw [body_hashtag_analysis, hn]
      simp [hp]
    unfold handle_get_prompt
    rw [hb]
  · intro h0
    rw [h0] at hn
    have h10 : pyInt ((Option.none : Option String).getD "10") = Except.ok (10 : Int) := rfl
    have := h10.symm.trans hn
    injection this with h2
    exact h2.symm
  · exact filterMap_if_eq posts captionTruthy hashtagEntry
  · intro p _ _
    rfl

def stubPost1 : Post := ⟨"1", some "Hello #tag1 #tag2", 5, 2, []⟩

def stubPost2 : Post := ⟨"2", some "#tag1 #tag2 world", 7, 3, []⟩

def stubPost3 : Post := ⟨"3", Option.none, 1, 0, []⟩

/-- A test double returning three stub posts — two with captions carrying
`#tag1 #tag2`, one with no caption — when asked for three posts. -/
def hashtagClient : InstagramClient where
  get_profile_info := fun _ => ApiOutcome.genericError "unused"
  get_media_posts := fun _ lim _ =>
    match lim with
    | PyVal.int 3 => ApiOutcome.ok [stubPost1, stubPost2, stubPost3]
    | _ => ApiOutcome.genericError "wrong limit"
  get_media_insights := fun _ _ => ApiOutcome.genericError "unused"
  publish_media := fun _ => ApiOutcome.genericError "unused"
  get_account_pages := ApiOutcome.genericError "unused"
  get_account_insights := fun _ _ _ => ApiOutcome.genericError "unused"
  validate_access_token := ApiOutcome.genericError "unused"

theorem hashtag_analysis_entries_witness :
    handle_get_prompt "hashtag_analysis" [("post_count", "3")] hashtagClient =
      (hashtagText 3 (hashtagsData [stubPost1, stubPost2, stubPost3]),
       [ClientCall.getMediaPosts PyVal.none (PyVal.int 3) PyVal.none]) ∧
    ([("post_count", "3")].lookup "post_count" = Option.none → (3 : Int) = 10) ∧
    hashtagsData [stubPost1, stubPost2, stubPost3] =
      ([stubPost1, stubPost2, stubPost3].filter captionTruthy).map hashtagEntry ∧
    ∀ p ∈ [stubPost1, stubPost2, stubPost3], captionTruthy p = true →
      hashtagEntry p = Json.obj [("post_id", Json.str p.id),
        ("hashtags", Json.arr (((pySplit (p.caption.getD "")).filter
            fun w => w.startsWith "#").map Json.str)),
        ("likes", Json.int p.like_count), ("comments", Json.int p.comments_count)] :=
  hashtag_analysis_entries [("post_count", "3")] hashtagClient
    [stubPost1, stubPost2, stubPost3] 3 rfl rfl

/-! ## C10 -/

/-- C10: the `publish_media` exclusivity check tests truthiness, not key
presence: supplying `image_url = ""` with a non-empty `video_url` proceeds to
the API call (one `publish_media` client call, with the empty string carried
into the request), while supplying both as empty strings returns the fixed
exclusivity failure envelope with no client call. -/
theorem publish_truthiness_behavior :
    (handle_call_tool "publish_media"
        [("image_url", PyVal.str ""), ("video_url", PyVal.str "http://example.com/v.mp4")]
        pubClient epochDT).snd =
      [ClientCall.publishMedia
        ⟨some "", some "http://example.com/v.mp4", Option.none, Option.none⟩] ∧
    handle_call_tool "publish_media"
        [("image_url", PyVal.str ""), ("video_url", PyVal.str "")] pubClient epochDT =
      (⟨false, Option.none, some "Exactly one of image_url or video_url is required.",
        [("tool", Json.str "publish_media"), ("timestamp", Json.str epochDT.isoformat)]⟩,
       []) ∧
    (handle_call_tool "publish_media"
        [("image_url", PyVal.str "http://example.com/i.jpg"), ("video_url", PyVal.str "")]
        pubClient epochDT).snd =
      [ClientCall.publishMedia
        ⟨some "http://example.com/i.jpg", some "", Option.none, Option.none⟩] :=
  ⟨rfl, rfl, rfl⟩

/-! ## Witnesses for C3, C4 and C6 -/

/-- A test double every operation of which succeeds. -/
def okClient : InstagramClient where
  get_profile_info := fun _ => ApiOutcome.ok (Json.obj [("id", Json.str "42")])
  get_media_posts := fun _ _ _ => ApiOutcome.ok []
  get_media_insights := fun _ _ => ApiOutcome.ok []
  publish_media := fun _ => ApiOutcome.ok (Json.obj [])
  get_account_pages := ApiOutcome.ok []
  get_account_insights := fun _ _ _ => ApiOutcome.ok []
  validate_access_token := ApiOutcome.ok true

theorem envelope_invariants_witness :
    ((handle_call_tool "validate_access_token" [] okClient nowDT).fst.success = true →
       (handle_call_tool "validate_access_token" [] okClient nowDT).fst.data.isSome = true ∧
       (handle_call_tool "validate_access_token" [] okClient nowDT).fst.error = Option.none) ∧
    ((handle_call_tool "validate_access_token" [] okClient nowDT).fst.success = false →
       (handle_call_tool "validate_access_token" [] okClient nowDT).fst.data = Option.none ∧
       (handle_call_tool "validate_access_token" [] okClient nowDT).fst.error.isSome = true) ∧
    ((handle_call_tool "validate_access_token" [] okClient nowDT).fst.success = true →
       (handle_call_tool "validate_access_token" [] okClient nowDT).fst.metadata.lookup
           "tool" = some (Json.str "validate_access_token") ∧
       ∃ t : DateTime,
         (handle_call_tool "validate_access_token" [] okClient nowDT).fst.metadata.lookup
             "timestamp" = some (Json.str t.isoformat) ∧
         isValidIso8601 t.isoformat = true ∧ DateTime.le epochDT t) :=
  envelope_invariants "validate_access_token" [] okClient nowDT epochDT (by decide)

/-- A test double whose profile operation raises a structured
`InstagramAPIError`. -/
def errClient : InstagramClient where
  get_profile_info := fun _ =>
    ApiOutcome.apiError "Invalid OAuth access token." (some 190) (some 463)
  get_media_posts := fun _ _ _ => ApiOutcome.genericError "unused"
  get_media_insights := fun _ _ => ApiOutcome.genericError "unused"
  publish_media := fun _ => ApiOutcome.genericError "unused"
  get_account_pages := ApiOutcome.genericError "unused"
  get_account_insights := fun _ _ _ => ApiOutcome.genericError "unused"
  validate_access_token := ApiOutcome.genericError "unused"

theorem api_error_envelope_path_witness :
    handle_call_tool "get_profile_info" [] errClient epochDT =
      (⟨false, Option.none, some ("Instagram API error: " ++ "Invalid OAuth access token."),
        [("error_code", optIntJson (some 190)), ("error_subcode", optIntJson (some 463))]⟩,
       [ClientCall.getProfileInfo (pyGet [] "account_id")]) :=
  api_error_envelope_path "get_profile_info" [] errClient epochDT
    "Invalid OAuth access token." (some 190) (some 463)
    [ClientCall.getProfileInfo (pyGet [] "account_id")] rfl

theorem unknown_tool_envelope_eq_witness :
    handle_call_tool "frobnicate" [] okClient epochDT =
      (⟨false, Option.none, some ("Unknown tool: " ++ "frobnicate"), []⟩, []) :=
  unknown_tool_envelope_eq "frobnicate" [] okClient epochDT (by decide)

theorem callTool_never_raises_witness :
    ∃ env calls, handle_call_tool "get_media_insights" [] okClient epochDT = (env, calls) ∧
      ∀ e cs, handle_call_tool_body "get_media_insights" [] okClient epochDT =
          (Except.error e, cs) →
        env.success = false ∧ env.error.isSome = true :=
  callTool_never_raises "get_media_insights" [] okClient epochDT

theorem invalid_enum_fails_before_client_witness :
    (handle_call_tool "get_media_insights"
        [("media_id", PyVal.str "m1"),
         ("metrics", PyVal.list [PyVal.str "reach", PyVal.str "bogus"])]
        okClient epochDT).fst.success = false ∧
    (handle_call_tool "get_media_insights"
        [("media_id", PyVal.str "m1"),
         ("metrics", PyVal.list [PyVal.str "reach", PyVal.str "bogus"])]
        okClient epochDT).snd = [] :=
  (invalid_enum_fails_before_client
      [("media_id", PyVal.str "m1"),
       ("metrics", PyVal.list [PyVal.str "reach", PyVal.str "bogus"])]
      okClient epochDT).1
    [PyVal.str "reach", PyVal.str "bogus"] "bogus" rfl (by simp) rfl

theorem resource_read_never_raises_witness :
    handle_read_resource "instagram://pages" errClient =
      Json.dumps (Json.obj [("error", Json.str "unused")]) :=
  (resource_read_never_raises "instagram://pages" errClient).1 (PyExn.otherExn "unused") rfl
